import Mathlib

/-!
Verification development for the face-detection candidate pipeline of the
facerecon repository (src/native/face_detector.cpp).  The C++ code is shallowly
embedded: pure arithmetic is translated to exact rational arithmetic, machine
integers to `Int`, and the external pixel-processing collaborators (OpenCV
primitives: color conversion, Canny, contour extraction, cascade scan, DNN
forward pass, image decode, wall-clock reads) are modelled as oracle fields of
the image / input structures, exactly at the boundaries where the C++ code
calls them.  Everything between those boundaries is translated statement by
statement from the source.
-/

/-- Embedding of `cv::Rect` with integer coordinates (face_detector.h uses `cv::Rect`). -/
structure Rect where
  x : Int
  y : Int
  w : Int
  h : Int
deriving DecidableEq

/-- Rectangle area `cv::Rect::area()`: `width * height`. -/
def rectArea (r : Rect) : Int := r.w * r.h

/-- Intersection rectangle `cv::Rect operator&`, computed coordinate-wise
(`x = max`, right edge = `min`); an empty result is detected by a
non-positive width or height, as `cv::Rect::empty()` does. -/
def interRect (a b : Rect) : Rect :=
  { x := max a.x b.x
    y := max a.y b.y
    w := min (a.x + a.w) (b.x + b.w) - max a.x b.x
    h := min (a.y + a.h) (b.y + b.h) - max a.y b.y }

/-- Emptiness test `(a & b).empty()` in the sense of `cv::Rect`: non-positive width or height. -/
def interIsEmpty (a b : Rect) : Bool :=
  decide ((interRect a b).w ≤ 0 ∨ (interRect a b).h ≤ 0)

/-- The intersection-over-union computation of
`FaceDetector::isOverlapping` (face_detector.cpp lines 530-544):
if the intersection rectangle is empty the pair contributes no overlap
(the loop `continue`s, i.e. IoU is effectively 0); otherwise
`intersectionArea / (newArea + existingArea - intersectionArea)`. -/
def iou (a b : Rect) : ℚ :=
  if interIsEmpty a b then 0
  else
    ((rectArea (interRect a b) : ℚ)) /
      ((rectArea a : ℚ) + (rectArea b : ℚ) - (rectArea (interRect a b) : ℚ))

/-- Conversion `static_cast<int>` applied to a floating value: truncation toward zero. -/
def cppTrunc (q : ℚ) : Int := if 0 ≤ q then q.floor else -((-q).floor)

/-- Input to `FaceDetector::extractFaceEncoding` after the external pixel
collaborators have run on the cropped face region: `ok = false` models any
collaborator throwing (for example `cv::resize` on an empty region), which the
function catches; the other fields are the measured quantities the function
reads back (`cv::meanStdDev`, integral-image block sums, Sobel means). -/
structure EncInput where
  ok : Bool
  meanVal : ℚ
  stdDevVal : ℚ
  blockMean : Nat → Nat → ℚ
  gradXMean : ℚ
  gradYMean : ℚ

/-- Final pad/truncate of `extractFaceEncoding` (lines 815-820): push `0.0`
while the vector is shorter than 128, then `resize(128)`. -/
def padTruncate (l : List ℚ) : List ℚ :=
  (l ++ List.replicate (128 - l.length) 0).take 128

/-- The `(y, x)` block origins visited by the nested loops of
`extractFaceEncoding` (lines 777-778): the face is resized to 64x64, so each
loop runs `0, 16, 32` (`y < 64 - 16`, step 16), `y` outer, `x` inner. -/
def blockCoords : List (Nat × Nat) :=
  ([0, 16, 32] : List Nat).flatMap fun y => ([0, 16, 32] : List Nat).map fun x => (y, x)

/-- Embedding of `FaceDetector::extractFaceEncoding` (lines 745-829): mean and standard
deviation, integral-image block means (guarded by the `size >= 126` capacity
check before each push), the two Sobel gradient means (guarded by
`size < 127` / `size < 128`), then pad/truncate to exactly 128; on any caught
error, a 128-element zero vector. -/
def extractFaceEncoding (f : EncInput) : List ℚ :=
  if f.ok = false then List.replicate 128 0
  else
    let enc0 := [f.meanVal, f.stdDevVal]
    let enc1 := blockCoords.foldl
      (fun acc p => if 126 ≤ acc.length then acc else acc ++ [f.blockMean p.1 p.2]) enc0
    let enc2 := if enc1.length < 127 then enc1 ++ [f.gradXMean] else enc1
    let enc3 := if enc2.length < 128 then enc2 ++ [f.gradYMean] else enc2
    padTruncate enc3

/-- One raw DNN detection row `[image_id, label, confidence, x1, y1, x2, y2]`:
the confidence and the four normalized coordinates the code reads. -/
structure RawDet where
  conf : ℚ
  rx1 : ℚ
  ry1 : ℚ
  rx2 : ℚ
  ry2 : ℚ
deriving DecidableEq

/-- A frame (`cv::Mat`) together with the outputs of the external
collaborators the pipeline invokes on it: `dnnOut` is the tensor returned by
`faceNet.forward()`, `haarFull` / `haarRegion` are the rectangle lists returned
by `faceCascade.detectMultiScale` under the full-frame parameters
(lines 272-280) and the zoomed-region parameters (lines 476-484); the
per-sub-rectangle fields are the photometric measurements
(`cv::meanStdDev`, Canny edge sum, BGR channel means, rectangular contour
count, blur-difference mean, morphological line sums) that
`validateFaceRegion` / `isElectronicDisplay` read on a cropped region, and
`encIn` is the encoder-collaborator view of a cropped region. -/
structure Image where
  cols : Int
  rows : Int
  grayMean : Rect → ℚ
  grayStd : Rect → ℚ
  edgeSum : Rect → ℚ
  bgrMean : Rect → ℚ × ℚ × ℚ
  rectContours : Rect → Nat
  diffMean : Rect → ℚ
  hLineSum : Rect → ℚ
  vLineSum : Rect → ℚ
  dnnOut : List RawDet
  haarFull : List Rect
  haarRegion : List Rect
  encIn : Rect → EncInput

/-- Embedding of `DetectedFace` (face_detector.h): bounding box, confidence, encoding
(the unused `landmarks` field is omitted). -/
structure DetectedFace where
  boundingBox : Rect
  confidence : ℚ
  encoding : List ℚ
deriving DecidableEq

/-- Embedding of `DetectionResult` (face_detector.h).  `processingTimeMs` is a `long long`
with no initializer, and `DetectionResult result;` leaves it indeterminate
until assigned: `none` models the never-assigned (indeterminate) state,
`some t` a value actually stored by the code. -/
structure DetectionResult where
  success : Bool
  error : String
  faces : List DetectedFace
  processingTimeMs : Option Int
deriving DecidableEq

/-- The detector configuration read by a detection call: the `initialized`
flag, the backend selection (`useDeepLearning` and whether `faceNet` is
non-empty), and the confidence threshold. -/
structure DetectorState where
  initialized : Bool
  useDeepLearning : Bool
  netNonEmpty : Bool
  confidenceThreshold : ℚ
deriving DecidableEq

/-- Embedding of `FaceDetector::isElectronicDisplay` (lines 652-743): the five sequential
rejection tests, each an early `return true`. -/
def isElectronicDisplay (img : Image) (r : Rect) : Bool :=
  if img.grayMean r > 200 ∧ img.grayStd r < 15 then true
  else if img.rectContours r > 3 then true
  else
    let bgr := img.bgrMean r
    let bVal := bgr.1
    let gVal := bgr.2.1
    let rVal := bgr.2.2
    let maxChannel := max rVal (max gVal bVal)
    let minChannel := min rVal (min gVal bVal)
    let saturation := if maxChannel > 0 then (maxChannel - minChannel) / maxChannel else 0
    if saturation > 7/10 ∧ maxChannel > 150 then true
    else if img.diffMean r > 25 ∧ img.rectContours r > 1 then true
    else
      let totalPixels : ℚ := (r.h : ℚ) * (r.w : ℚ) * 255
      let hFrac := img.hLineSum r / totalPixels
      let vFrac := img.vLineSum r / totalPixels
      if (hFrac > 8/100 ∨ vFrac > 8/100) ∧ img.rectContours r > 1 then true
      else false

/-- Embedding of `FaceDetector::validateFaceRegion` (lines 589-650): aspect-ratio band,
minimum and maximum size, electronic-display rejection, contrast band, edge
density band with the skin-tone split. -/
def validateFaceRegion (img : Image) (r : Rect) : Bool :=
  let aspect : ℚ := (r.w : ℚ) / (r.h : ℚ)
  if aspect < 6/10 ∨ aspect > 16/10 then false
  else if r.w < 15 ∨ r.h < 15 then false
  else if (r.w : ℚ) > (img.cols : ℚ) * (3/10) ∨ (r.h : ℚ) > (img.rows : ℚ) * (3/10) then false
  else if isElectronicDisplay img r then false
  else if img.grayStd r < 6 ∨ img.grayStd r > 90 then false
  else
    let edgeDensity := img.edgeSum r / ((r.w : ℚ) * (r.h : ℚ) * 255)
    if edgeDensity < 5/100 ∨ edgeDensity > 4/10 then false
    else
      let bgr := img.bgrMean r
      let bVal := bgr.1
      let gVal := bgr.2.1
      let rVal := bgr.2.2
      if rVal > 40 ∧ gVal > 25 ∧ bVal > 15 ∧ rVal > bVal * (8/10) ∧ rVal > gVal * (7/10) then
        decide (edgeDensity > 3/100 ∧ edgeDensity < 5/10)
      else
        decide (edgeDensity > 1/10 ∧ edgeDensity < 4/10)

/-- Embedding of `FaceDetector::isOverlapping` (lines 524-557): scan the existing faces;
an empty intersection `continue`s; IoU above the 0.3 threshold returns
`false` when the new face has strictly higher confidence (the comment says the
caller should then replace the existing face) and `true` otherwise; reaching
the end returns `false`. -/
def isOverlapping (nf : DetectedFace) : List DetectedFace → Bool
  | [] => false
  | ef :: rest =>
    if interIsEmpty nf.boundingBox ef.boundingBox then isOverlapping nf rest
    else if iou nf.boundingBox ef.boundingBox > 3/10 then
      if nf.confidence > ef.confidence then false else true
    else isOverlapping nf rest

/-- Construction of a `DetectedFace` from an accepted rectangle: the region is
cropped from the frame and encoded (`face.encoding = extractFaceEncoding(...)`). -/
def mkFace (img : Image) (r : Rect) (conf : ℚ) : DetectedFace :=
  { boundingBox := r, confidence := conf, encoding := extractFaceEncoding (img.encIn r) }

/-- Pixel-space x coordinate of a DNN detection:
`static_cast<int>(data * frame.cols)` then clamped into `[0, cols]` by
`std::max(0, std::min(x, frame.cols))` (lines 226-235). -/
def scaleClampX (img : Image) (q : ℚ) : Int :=
  max 0 (min (cppTrunc (q * (img.cols : ℚ))) img.cols)

/-- Pixel-space y coordinate of a DNN detection, clamped into `[0, rows]`. -/
def scaleClampY (img : Image) (q : ℚ) : Int :=
  max 0 (min (cppTrunc (q * (img.rows : ℚ))) img.rows)

/-- The rectangle `cv::Rect(x1, y1, x2-x1, y2-y1)` built from a DNN detection. -/
def dnnRect (img : Image) (d : RawDet) : Rect :=
  { x := scaleClampX img d.rx1
    y := scaleClampY img d.ry1
    w := scaleClampX img d.rx2 - scaleClampX img d.rx1
    h := scaleClampY img d.ry2 - scaleClampY img d.ry1 }

/-- One iteration of the DNN detection loop (lines 215-264 and 424-468):
threshold test on the confidence, coordinate scaling and clamping, the
`x2 > x1 && y2 > y1` dimension test, `validateFaceRegion`, then acceptance. -/
def dnnStep (img : Image) (threshold : ℚ) (acc : List DetectedFace) (d : RawDet) :
    List DetectedFace :=
  if d.conf > threshold then
    if scaleClampX img d.rx2 > scaleClampX img d.rx1 ∧
        scaleClampY img d.ry2 > scaleClampY img d.ry1 then
      if validateFaceRegion img (dnnRect img d) then
        acc ++ [mkFace img (dnnRect img d) d.conf]
      else acc
    else acc
  else acc

/-- The DNN candidate loop over the forward-pass output. -/
def dnnPass (img : Image) (threshold : ℚ) : List DetectedFace :=
  img.dnnOut.foldl (dnnStep img threshold) []

/-- One iteration of the full-frame Haar loop in `detectFaces`
(lines 282-305): only the light size validation
`width >= 20 && height >= 20 && width <= 500 && height <= 500`, then
acceptance with the constant confidence `0.7`. -/
def haarFullStep (img : Image) (acc : List DetectedFace) (r : Rect) : List DetectedFace :=
  if 20 ≤ r.w ∧ 20 ≤ r.h ∧ r.w ≤ 500 ∧ r.h ≤ 500 then acc ++ [mkFace img r (7/10)] else acc

/-- The full-frame Haar loop of `detectFaces`. -/
def haarFullPass (img : Image) : List DetectedFace :=
  img.haarFull.foldl (haarFullStep img) []

/-- One iteration of the Haar loop in `detectFacesInRegion` (lines 486-506):
full `validateFaceRegion`, then acceptance with the constant confidence `0.7`. -/
def haarRegionStep (img : Image) (acc : List DetectedFace) (r : Rect) : List DetectedFace :=
  if validateFaceRegion img r then acc ++ [mkFace img r (7/10)] else acc

/-- The Haar loop of `detectFacesInRegion`. -/
def haarRegionPass (img : Image) : List DetectedFace :=
  img.haarRegion.foldl (haarRegionStep img) []

/-- The dynamic threshold of `detectFaces` (lines 219-223): when the forward
pass yields more than 30 raw detections, `max(confidenceThreshold * 0.7, 0.12)`,
otherwise the configured threshold unchanged. -/
def dynamicThreshold (base : ℚ) (numDetections : Nat) : ℚ :=
  if numDetections > 30 then max (base * (7/10)) (12/100) else base

/-- The main candidate pass of `detectFaces`: the DNN loop with the dynamic
threshold when `useDeepLearning && !faceNet.empty()`, otherwise the full-frame
Haar loop. -/
def mainPassFaces (st : DetectorState) (img : Image) : List DetectedFace :=
  if st.useDeepLearning && st.netNonEmpty then
    dnnPass img (dynamicThreshold st.confidenceThreshold img.dnnOut.length)
  else haarFullPass img

/-- Embedding of `FaceDetector::detectFacesInRegion` (lines 400-522).  `elapsedMs` is the
value measured by the wall-clock reads around the call body.  The early
return for an uninitialized detector (lines 404-408) leaves
`processingTimeMs` unassigned. -/
def detectFacesInRegion (st : DetectorState) (img : Image) (elapsedMs : Int) :
    DetectionResult :=
  if !st.initialized then
    { success := false, error := "Detector not initialized", faces := [],
      processingTimeMs := none }
  else
    let faces :=
      if st.useDeepLearning && st.netNonEmpty then
        dnnPass img (st.confidenceThreshold * (8/10))
      else haarRegionPass img
    { success := true, error := "", faces := faces, processingTimeMs := some elapsedMs }

/-- The five zoom regions of the multi-scale block (lines 336-347): four
quadrants plus the centered half-size region (integer division as in C++). -/
def zoomRegions (img : Image) : List Rect :=
  [ { x := 0, y := 0, w := img.cols / 2, h := img.rows / 2 }
  , { x := img.cols / 2, y := 0, w := img.cols / 2, h := img.rows / 2 }
  , { x := 0, y := img.rows / 2, w := img.cols / 2, h := img.rows / 2 }
  , { x := img.cols / 2, y := img.rows / 2, w := img.cols / 2, h := img.rows / 2 }
  , { x := img.cols / 4, y := img.rows / 4, w := img.cols / 2, h := img.rows / 2 } ]

/-- Coordinate adjustment of a zoom-region face back to original frame space
(lines 363-366): halve each coordinate and add the region offset. -/
def mapBack (region : Rect) (f : DetectedFace) : DetectedFace :=
  { f with boundingBox :=
      { x := f.boundingBox.x / 2 + region.x
        y := f.boundingBox.y / 2 + region.y
        w := f.boundingBox.w / 2
        h := f.boundingBox.h / 2 } }

/-- The merge gate of the multi-scale block (lines 368-372): a coordinate-mapped
zoom face is appended exactly when its confidence exceeds 0.4 and
`isOverlapping` against the faces accumulated so far returns false.  Existing
faces are never removed. -/
def mergeStep (acc : List DetectedFace) (f : DetectedFace) : List DetectedFace :=
  if f.confidence > 4/10 ∧ isOverlapping f acc = false then acc ++ [f] else acc

/-- Merging a list of incoming (already coordinate-mapped) faces into the
accumulated result, in order. -/
def mergeEscalated (existing incoming : List DetectedFace) : List DetectedFace :=
  incoming.foldl mergeStep existing

/-- The body of the multi-scale escalation (lines 336-378): for each zoom
region, run `detectFacesInRegion` on the externally cropped-and-2x-upscaled
view of that region (`regionView`), map the found faces back to original
coordinates and merge them.  (The thread-local recursion and frequency guards
at lines 312-329 guard a branch that is statically disabled, see
`multiScaleGuard`; the wall-clock value passed to the region call does not
affect its face list.) -/
def escalationFaces (st : DetectorState) (img : Image) (regionView : Rect → Image)
    (initialFaces : List DetectedFace) : List DetectedFace :=
  (zoomRegions img).foldl
    (fun acc region =>
      mergeEscalated acc
        (((detectFacesInRegion st (regionView region) 0).faces).map (mapBack region)))
    initialFaces

/-- The guard of the multi-scale block (line 310):
`if (false && result.faces.size() < 1 && result.faces.empty())`. -/
def multiScaleGuard (faces : List DetectedFace) : Bool :=
  false && decide (faces.length < 1) && faces.isEmpty

/-- Embedding of `FaceDetector::detectFaces` (lines 185-398).  The early return for an
uninitialized detector (lines 189-193) leaves `processingTimeMs` unassigned;
on the normal path `success` is set to true (line 388) and the measured
duration is stored (line 395). -/
def detectFaces (st : DetectorState) (img : Image) (regionView : Rect → Image)
    (elapsedMs : Int) : DetectionResult :=
  if !st.initialized then
    { success := false, error := "Detector not initialized", faces := [],
      processingTimeMs := none }
  else
    let faces := mainPassFaces st img
    let faces2 := if multiScaleGuard faces then escalationFaces st img regionView faces
      else faces
    { success := true, error := "", faces := faces2, processingTimeMs := some elapsedMs }

/-- Embedding of `FaceDetector::detectFacesFromBuffer` (lines 559-579): decode the buffer
(`cv::imdecode`, modelled by the `decode` collaborator; `none` is an empty
result matrix); on failure return `success=false` with the fixed message,
leaving `processingTimeMs` unassigned; otherwise delegate to `detectFaces`. -/
def detectFacesFromBuffer (st : DetectorState) (decode : List Nat → Option Image)
    (regionView : Rect → Image) (buffer : List Nat) (elapsedMs : Int) : DetectionResult :=
  match decode buffer with
  | none =>
      { success := false, error := "Failed to decode image from buffer", faces := [],
        processingTimeMs := none }
  | some img => detectFaces st img regionView elapsedMs

/-- Copying `frame.clone()` (line 842): a deep pixel copy; identical pixel content
yields identical collaborator measurements, so the clone is the same `Image`. -/
def clone (img : Image) : Image := img

/-- The value the future returned by `FaceDetector::detectFacesAsync`
(lines 832-847) resolves to: with a thread pool, `detectFaces` on the cloned
frame executed on a worker (measuring its own elapsed time); without one, the
synchronous fallback.  `elapsedMs` is the wall-clock duration measured inside
that execution. -/
def detectFacesAsync (st : DetectorState) (img : Image) (regionView : Rect → Image)
    (hasPool : Bool) (elapsedMs : Int) : DetectionResult :=
  if hasPool then detectFaces st (clone img) regionView elapsedMs
  else detectFaces st img regionView elapsedMs

/-! ### Concrete instances used by counterexamples and witnesses -/

/-- Encoder input for which the pixel pipeline fails (`ok = false`). -/
def encZ : EncInput :=
  { ok := false, meanVal := 0, stdDevVal := 0, blockMean := fun _ _ => 0,
    gradXMean := 0, gradYMean := 0 }

/-- Encoder input for which the pixel pipeline succeeds, with concrete stats. -/
def encOk : EncInput :=
  { ok := true, meanVal := 1/2, stdDevVal := 1/10, blockMean := fun y x => (y + x : ℚ) / 100,
    gradXMean := 1/50, gradYMean := 1/25 }

/-- A 640x480 frame on which every collaborator reports nothing. -/
def blankImg : Image :=
  { cols := 640, rows := 480
    grayMean := fun _ => 0, grayStd := fun _ => 0, edgeSum := fun _ => 0
    bgrMean := fun _ => (0, 0, 0), rectContours := fun _ => 0, diffMean := fun _ => 0
    hLineSum := fun _ => 0, vLineSum := fun _ => 0
    dnnOut := [], haarFull := [], haarRegion := [], encIn := fun _ => encZ }

/-- A 640x480 frame whose photometric measurements on every sub-rectangle are
face-like: mean 120, standard deviation 40, edge density 1/5, skin-tone BGR
means (50, 80, 100), no rectangular contours or line energy. -/
def imgFaceBase : Image :=
  { blankImg with
    grayMean := fun _ => 120
    grayStd := fun _ => 40
    edgeSum := fun r => (r.w : ℚ) * (r.h : ℚ) * 255 / 5
    bgrMean := fun _ => (50, 80, 100)
    diffMean := fun _ => 10 }

/-- An initialized detector on the Haar-cascade backend. -/
def stH : DetectorState :=
  { initialized := true, useDeepLearning := false, netNonEmpty := false,
    confidenceThreshold := 3/10 }

/-- An initialized detector on the deep-learning backend. -/
def stDL : DetectorState :=
  { initialized := true, useDeepLearning := true, netNonEmpty := true,
    confidenceThreshold := 3/10 }

/-- The constant region view returning the blank frame. -/
def rvB : Rect → Image := fun _ => blankImg

/-- Face-like frame where the full-frame cascade reports a 30x30 rectangle and
the region-parameter cascade reports a 60x60 rectangle. -/
def imgW : Image :=
  { imgFaceBase with
    haarFull := [{ x := 0, y := 0, w := 30, h := 30 }]
    haarRegion := [{ x := 100, y := 100, w := 60, h := 60 }] }

/-- Frame where the full-frame cascade reports a 300x100 rectangle (aspect
ratio 3.0, which `validateFaceRegion` rejects) that passes the light size
check of the full-frame Haar loop. -/
def imgBad : Image :=
  { blankImg with haarFull := [{ x := 0, y := 0, w := 300, h := 100 }] }

/-- The 2x-upscaled view of the top-left quadrant used in the escalation
counterexample: a 640x480 face-like image on which the region-parameter
cascade reports a 60x60 rectangle that passes full validation. -/
def region7 : Image :=
  { imgFaceBase with haarRegion := [{ x := 100, y := 100, w := 60, h := 60 }] }

/-- Region view mapping the top-left quadrant of a 640x480 frame to
`region7` and every other region to the blank frame. -/
def rv7 : Rect → Image :=
  fun r => if r = { x := 0, y := 0, w := 320, h := 240 } then region7 else blankImg

/-- A raw DNN detection with zero confidence. -/
def detLow : RawDet := { conf := 0, rx1 := 0, ry1 := 0, rx2 := 0, ry2 := 0 }

/-- Frame whose forward pass yields 31 raw detections, all of confidence 0. -/
def imgDL : Image := { blankImg with dnnOut := List.replicate 31 detLow }

/-- Existing face of the deduplication counterexample: 100x100 box,
confidence 0.4. -/
def e04 : DetectedFace :=
  { boundingBox := { x := 0, y := 0, w := 100, h := 100 }, confidence := 4/10,
    encoding := [] }

/-- Incoming face of the deduplication counterexample: 100x50 box entirely
inside the former (IoU 1/2), confidence 0.9. -/
def f09 : DetectedFace :=
  { boundingBox := { x := 0, y := 0, w := 100, h := 50 }, confidence := 9/10,
    encoding := [] }

/-- The face the full-frame Haar loop accepts on `imgW`. -/
def fc1 : DetectedFace := mkFace imgW { x := 0, y := 0, w := 30, h := 30 } (7/10)

/-- An undecodable byte buffer (a single stray byte). -/
def badBuf : List Nat := [255]

/-- The decode collaborator on which `cv::imdecode` yields an empty matrix. -/
def decodeFail : List Nat → Option Image := fun _ => none

/-! ### Helper lemmas -/

theorem padTruncate_length (l : List ℚ) : (padTruncate l).length = 128 := by
  simp [padTruncate]
  omega

theorem mem_foldl_of_step {α β : Type} (P : α → Prop) (step : List α → β → List α)
    (hstep : ∀ acc b f, f ∈ step acc b → f ∈ acc ∨ P f) :
    ∀ (l : List β) (init : List α) (f : α), f ∈ List.foldl step init l → f ∈ init ∨ P f := by
  intro l
  induction l with
  | nil => intro init f h; exact Or.inl h
  | cons b t ih =>
      intro init f h
      rw [List.foldl_cons] at h
      rcases ih (step init b) f h with h1 | h2
      · exact hstep init b f h1
      · exact Or.inr h2

theorem dnnPass_mem {img : Image} {t : ℚ} {f : DetectedFace} (h : f ∈ dnnPass img t) :
    validateFaceRegion img f.boundingBox = true := by
  have hstep : ∀ acc d g, g ∈ dnnStep img t acc d → g ∈ acc ∨
      validateFaceRegion img g.boundingBox = true := by
    intro acc d g hg
    unfold dnnStep at hg
    split at hg
    · split at hg
      · split at hg
        · rcases List.mem_append.mp hg with h1 | h2
          · exact Or.inl h1
          · rename_i hv
            rcases List.mem_singleton.mp h2 with rfl
            exact Or.inr hv
        · exact Or.inl hg
      · exact Or.inl hg
    · exact Or.inl hg
  rcases mem_foldl_of_step _ _ hstep img.dnnOut [] f h with h1 | h2
  · cases h1
  · exact h2

theorem haarFullPass_mem {img : Image} {f : DetectedFace} (h : f ∈ haarFullPass img) :
    (20 ≤ f.boundingBox.w ∧ 20 ≤ f.boundingBox.h ∧ f.boundingBox.w ≤ 500 ∧
      f.boundingBox.h ≤ 500) ∧ f.confidence = 7/10 := by
  have hstep : ∀ acc r g, g ∈ haarFullStep img acc r → g ∈ acc ∨
      ((20 ≤ g.boundingBox.w ∧ 20 ≤ g.boundingBox.h ∧ g.boundingBox.w ≤ 500 ∧
        g.boundingBox.h ≤ 500) ∧ g.confidence = 7/10) := by
    intro acc r g hg
    unfold haarFullStep at hg
    split at hg
    · rcases List.mem_append.mp hg with h1 | h2
      · exact Or.inl h1
      · rename_i hcond
        rcases List.mem_singleton.mp h2 with rfl
        exact Or.inr ⟨hcond, rfl⟩
    · exact Or.inl hg
  rcases mem_foldl_of_step _ _ hstep img.haarFull [] f h with h1 | h2
  · cases h1
  · exact h2

theorem haarRegionPass_mem {img : Image} {f : DetectedFace} (h : f ∈ haarRegionPass img) :
    validateFaceRegion img f.boundingBox = true ∧ f.confidence = 7/10 := by
  have hstep : ∀ acc r g, g ∈ haarRegionStep img acc r → g ∈ acc ∨
      (validateFaceRegion img g.boundingBox = true ∧ g.confidence = 7/10) := by
    intro acc r g hg
    unfold haarRegionStep at hg
    split at hg
    · rcases List.mem_append.mp hg with h1 | h2
      · exact Or.inl h1
      · rename_i hv
        rcases List.mem_singleton.mp h2 with rfl
        exact Or.inr ⟨hv, rfl⟩
    · exact Or.inl hg
  rcases mem_foldl_of_step _ _ hstep img.haarRegion [] f h with h1 | h2
  · cases h1
  · exact h2

/-- The multi-scale guard is the literal `false && ...` of line 310. -/
theorem multiScaleGuard_false (faces : List DetectedFace) : multiScaleGuard faces = false := by
  simp [multiScaleGuard]

/-- On an initialized detector the faces of `detectFaces` are exactly those of
the main candidate pass: the escalation branch is statically disabled. -/
theorem detectFaces_faces_main (st : DetectorState) (img : Image)
    (rv : Rect → Image) (t : Int) (hinit : st.initialized = true) :
    (detectFaces st img rv t).faces = mainPassFaces st img := by
  unfold detectFaces
  simp [hinit, multiScaleGuard_false]

/-- The success flag, error string and face list of `detectFaces` do not
depend on the measured wall-clock duration. -/
theorem detectFaces_time_indep (st : DetectorState) (img : Image)
    (rv : Rect → Image) (t₁ t₂ : Int) :
    (detectFaces st img rv t₁).success = (detectFaces st img rv t₂).success ∧
    (detectFaces st img rv t₁).error = (detectFaces st img rv t₂).error ∧
    (detectFaces st img rv t₁).faces = (detectFaces st img rv t₂).faces := by
  unfold detectFaces
  by_cases h : st.initialized <;> simp [h]

theorem interRect_comm (a b : Rect) : interRect a b = interRect b a := by
  unfold interRect
  rw [max_comm a.x b.x, max_comm a.y b.y, min_comm (a.x + a.w) (b.x + b.w),
    min_comm (a.y + a.h) (b.y + b.h)]

theorem interIsEmpty_comm (a b : Rect) : interIsEmpty a b = interIsEmpty b a := by
  unfold interIsEmpty
  rw [interRect_comm]

theorem degenerate_interIsEmpty (a b : Rect)
    (h : a.w ≤ 0 ∨ a.h ≤ 0 ∨ b.w ≤ 0 ∨ b.h ≤ 0) : interIsEmpty a b = true := by
  unfold interIsEmpty interRect
  simp only [decide_eq_true_eq]
  omega

theorem validate_imgBad_false :
    validateFaceRegion imgBad { x := 0, y := 0, w := 300, h := 100 } = false := by
  norm_num [validateFaceRegion, imgBad, blankImg]

theorem detectFaces_imgBad_eval :
    (detectFaces stH imgBad rvB 0).faces =
      [mkFace imgBad { x := 0, y := 0, w := 300, h := 100 } (7/10)] := by
  rw [detectFaces_faces_main _ _ _ _ rfl]
  norm_num [mainPassFaces, stH, haarFullPass, haarFullStep, imgBad, blankImg]

theorem detectFaces_imgW_eval : (detectFaces stH imgW rvB 0).faces = [fc1] := by
  rw [detectFaces_faces_main _ _ _ _ rfl]
  norm_num [mainPassFaces, stH, haarFullPass, haarFullStep, imgW, imgFaceBase, blankImg, fc1]

theorem isOverlapping_f09_e04 : isOverlapping f09 [e04] = false := by
  norm_num [isOverlapping, interIsEmpty, interRect, iou, rectArea, f09, e04]

theorem mergeEscalated_e04_f09 : mergeEscalated [e04] [f09] = [e04, f09] := by
  have hconf : f09.confidence = 9/10 := rfl
  norm_num [mergeEscalated, mergeStep, isOverlapping_f09_e04, hconf]

theorem display_region7_false :
    isElectronicDisplay region7 { x := 100, y := 100, w := 60, h := 60 } = false := by
  norm_num [isElectronicDisplay, region7, imgFaceBase, blankImg, max_def, min_def]

theorem validate_region7_true :
    validateFaceRegion region7 { x := 100, y := 100, w := 60, h := 60 } = true := by
  norm_num [validateFaceRegion, isElectronicDisplay, region7, imgFaceBase, blankImg,
    max_def, min_def]

theorem region7_faces :
    (detectFacesInRegion stH region7 0).faces =
      [mkFace region7 { x := 100, y := 100, w := 60, h := 60 } (7/10)] := by
  have h1 : stH.initialized = true := rfl
  have h2 : (stH.useDeepLearning && stH.netNonEmpty) = false := rfl
  have hlist : region7.haarRegion = [{ x := 100, y := 100, w := 60, h := 60 }] := rfl
  simp [detectFacesInRegion, h1, h2, hlist, haarRegionPass, haarRegionStep,
    validate_region7_true]

theorem blank_region_faces : (detectFacesInRegion stH blankImg 0).faces = [] := by
  simp [detectFacesInRegion, stH, haarRegionPass, blankImg]

theorem escalation_eval :
    escalationFaces stH blankImg rv7 [] =
      [{ boundingBox := { x := 50, y := 50, w := 30, h := 30 }, confidence := 7/10,
         encoding :=
           extractFaceEncoding (region7.encIn { x := 100, y := 100, w := 60, h := 60 }) }] := by
  have hzoom : zoomRegions blankImg =
      [ { x := 0, y := 0, w := 320, h := 240 }, { x := 320, y := 0, w := 320, h := 240 }
      , { x := 0, y := 240, w := 320, h := 240 }, { x := 320, y := 240, w := 320, h := 240 }
      , { x := 160, y := 120, w := 320, h := 240 } ] := by decide
  have hrv1 : rv7 { x := 0, y := 0, w := 320, h := 240 } = region7 := by simp [rv7]
  have hrv2 : rv7 { x := 320, y := 0, w := 320, h := 240 } = blankImg := by simp [rv7]
  have hrv3 : rv7 { x := 0, y := 240, w := 320, h := 240 } = blankImg := by simp [rv7]
  have hrv4 : rv7 { x := 320, y := 240, w := 320, h := 240 } = blankImg := by simp [rv7]
  have hrv5 : rv7 { x := 160, y := 120, w := 320, h := 240 } = blankImg := by simp [rv7]
  unfold escalationFaces
  rw [hzoom]
  simp only [List.foldl_cons, List.foldl_nil, hrv1, hrv2, hrv3, hrv4, hrv5,
    region7_faces, blank_region_faces, List.map_nil, List.map_cons]
  norm_num [mergeEscalated, mergeStep, mapBack, mkFace, isOverlapping]

/-! ### Claim theorems -/

/-- C8: the IoU measure used for deduplication is symmetric, equals 1 on a
non-degenerate rectangle paired with itself, and equals 0 for a degenerate
(zero-area) or disjoint (empty-intersection) pair. -/
theorem iou_spec_props (a b : Rect) :
    iou a b = iou b a ∧
    (0 < a.w → 0 < a.h → iou a a = 1) ∧
    ((a.w ≤ 0 ∨ a.h ≤ 0 ∨ b.w ≤ 0 ∨ b.h ≤ 0 ∨ interIsEmpty a b = true) → iou a b = 0) := by
  refine ⟨?_, ?_, ?_⟩
  · unfold iou
    rw [interIsEmpty_comm, interRect_comm]
    split
    · rfl
    · rw [add_comm ((rectArea a : ℚ)) ((rectArea b : ℚ))]
  · intro hw hh
    have hia : interRect a a = a := by
      have h1 : a.x + a.w - a.x = a.w := by omega
      have h2 : a.y + a.h - a.y = a.h := by omega
      simp only [interRect, max_self, min_self, h1, h2]
    have harea : (0 : ℤ) < rectArea a := mul_pos hw hh
    have hne : interIsEmpty a a = false := by
      unfold interIsEmpty
      rw [hia]
      simp only [decide_eq_false_iff_not, not_or, not_le]
      omega
    unfold iou
    rw [hne, hia]
    simp only [Bool.false_eq_true, if_false]
    rw [add_sub_cancel_right]
    exact div_self (by exact_mod_cast harea.ne')
  · intro h
    have he : interIsEmpty a b = true := by
      rcases h with h | h | h | h | h
      · exact degenerate_interIsEmpty a b (Or.inl h)
      · exact degenerate_interIsEmpty a b (Or.inr (Or.inl h))
      · exact degenerate_interIsEmpty a b (Or.inr (Or.inr (Or.inl h)))
      · exact degenerate_interIsEmpty a b (Or.inr (Or.inr (Or.inr h)))
      · exact h
    unfold iou
    rw [he]
    simp

/-- C8 witness: the three properties evaluated on the concrete rectangles
`(0,0,4,4)` and the disjoint `(10,10,4,4)`. -/
theorem iou_spec_props_witness :
    iou { x := 0, y := 0, w := 4, h := 4 } { x := 10, y := 10, w := 4, h := 4 } =
      iou { x := 10, y := 10, w := 4, h := 4 } { x := 0, y := 0, w := 4, h := 4 } ∧
    iou { x := 0, y := 0, w := 4, h := 4 } { x := 0, y := 0, w := 4, h := 4 } = 1 ∧
    iou { x := 0, y := 0, w := 4, h := 4 } { x := 10, y := 10, w := 4, h := 4 } = 0 := by
  have h := iou_spec_props { x := 0, y := 0, w := 4, h := 4 } { x := 10, y := 10, w := 4, h := 4 }
  exact ⟨h.1, h.2.1 (by decide) (by decide),
    h.2.2 (Or.inr (Or.inr (Or.inr (Or.inr (by decide)))))⟩

/-- C4: `extractFaceEncoding` always returns exactly 128 values, and on any
internal collaborator failure it returns the 128-element zero vector. -/
theorem encoder_total_and_zero_on_error (f : EncInput) :
    (extractFaceEncoding f).length = 128 ∧
    (f.ok = false → extractFaceEncoding f = List.replicate 128 0) := by
  constructor
  · unfold extractFaceEncoding
    split
    · simp
    · exact padTruncate_length _
  · intro h
    unfold extractFaceEncoding
    rw [if_pos h]

/-- C4 witness: evaluated on the failing encoder input `encZ`. -/
theorem encoder_total_and_zero_on_error_witness :
    (extractFaceEncoding encZ).length = 128 ∧
    extractFaceEncoding encZ = List.replicate 128 0 :=
  ⟨(encoder_total_and_zero_on_error encZ).1, (encoder_total_and_zero_on_error encZ).2 rfl⟩

/-- C5: the encoder is a deterministic function of its input: byte-identical
pixel input (hence identical collaborator measurements) yields element-for-
element identical output. -/
theorem encoder_deterministic (f g : EncInput) (h : f = g) :
    extractFaceEncoding f = extractFaceEncoding g := by
  rw [h]

/-- C5 witness: two invocations on the concrete input `encOk` agree. -/
theorem encoder_deterministic_witness :
    extractFaceEncoding encOk = extractFaceEncoding encOk :=
  encoder_deterministic encOk encOk rfl

/-- C6: in the deep-learning path of `detectFaces` every candidate of a pass is
filtered against `dynamicThreshold`, which equals
`max(confidenceThreshold * 0.7, 0.12)` when the pass has more than 30 raw
candidates and the unchanged `confidenceThreshold` otherwise. -/
theorem dynamic_threshold_policy (st : DetectorState) (img : Image)
    (rv : Rect → Image) (t : Int) (hinit : st.initialized = true)
    (hdl : (st.useDeepLearning && st.netNonEmpty) = true) :
    (detectFaces st img rv t).faces =
      dnnPass img (dynamicThreshold st.confidenceThreshold img.dnnOut.length) ∧
    (30 < img.dnnOut.length →
      dynamicThreshold st.confidenceThreshold img.dnnOut.length =
        max (st.confidenceThreshold * (7/10)) (12/100)) ∧
    (img.dnnOut.length ≤ 30 →
      dynamicThreshold st.confidenceThreshold img.dnnOut.length = st.confidenceThreshold) := by
  refine ⟨?_, ?_, ?_⟩
  · rw [detectFaces_faces_main st img rv t hinit]
    unfold mainPassFaces
    rw [hdl]
    simp
  · intro h
    unfold dynamicThreshold
    rw [if_pos h]
  · intro h
    unfold dynamicThreshold
    rw [if_neg (by omega)]

/-- C6 witness: a deep-learning detector on a frame whose forward pass yields
31 raw candidates, so the lowered threshold applies. -/
theorem dynamic_threshold_policy_witness :
    (detectFaces stDL imgDL rvB 0).faces = dnnPass imgDL (dynamicThreshold (3/10) 31) ∧
    dynamicThreshold (3/10) 31 = max ((3/10 : ℚ) * (7/10)) (12/100) := by
  have h := dynamic_threshold_policy stDL imgDL rvB 0 rfl rfl
  exact ⟨h.1, h.2.1 (by decide)⟩

/-- C1 counterexample: on the Haar-cascade backend the full-frame loop of
`detectFaces` accepts a 300x100 rectangle (only the light size check applies),
yet `validateFaceRegion` rejects that rectangle (aspect ratio 3.0), so a
successful result contains a face that does not satisfy the Region Validator. -/
theorem haar_face_fails_validator_cex :
    (detectFaces stH imgBad rvB 0).success = true ∧
    ((detectFaces stH imgBad rvB 0).faces.map fun f => f.boundingBox) =
      [{ x := 0, y := 0, w := 300, h := 100 }] ∧
    validateFaceRegion imgBad { x := 0, y := 0, w := 300, h := 100 } = false := by
  refine ⟨?_, ?_, validate_imgBad_false⟩
  · simp [detectFaces, stH]
  · rw [detectFaces_imgBad_eval]
    simp [mkFace]

/-- C1 amended: faces accepted by the deep-learning path satisfy
`validateFaceRegion`; faces accepted by the full-frame Haar path satisfy only
the light size check `20 ≤ w,h ≤ 500` and need not satisfy the validator. -/
theorem detect_validation_amended (st : DetectorState) (img : Image) (rv : Rect → Image)
    (t : Int) (f : DetectedFace) (hinit : st.initialized = true)
    (hf : f ∈ (detectFaces st img rv t).faces) :
    ((st.useDeepLearning && st.netNonEmpty) = true →
      validateFaceRegion img f.boundingBox = true) ∧
    ((st.useDeepLearning && st.netNonEmpty) = false →
      20 ≤ f.boundingBox.w ∧ 20 ≤ f.boundingBox.h ∧ f.boundingBox.w ≤ 500 ∧
        f.boundingBox.h ≤ 500) := by
  rw [detectFaces_faces_main st img rv t hinit] at hf
  unfold mainPassFaces at hf
  constructor
  · intro hdl
    rw [hdl] at hf
    simp only [if_true] at hf
    exact dnnPass_mem hf
  · intro hhaar
    rw [hhaar] at hf
    simp only [Bool.false_eq_true, if_false] at hf
    exact (haarFullPass_mem hf).1

/-- C1 amended witness: the face accepted from `imgW` on the Haar backend
satisfies the light size check. -/
theorem detect_validation_amended_witness :
    20 ≤ fc1.boundingBox.w ∧ 20 ≤ fc1.boundingBox.h ∧ fc1.boundingBox.w ≤ 500 ∧
      fc1.boundingBox.h ≤ 500 := by
  have h := detect_validation_amended stH imgW rvB 0 fc1 rfl
    (by rw [detectFaces_imgW_eval]; exact List.mem_singleton_self fc1)
  exact h.2 rfl

/-- C10: every face produced by the Haar-cascade path — the full-frame loop of
`detectFaces` or the region loop of `detectFacesInRegion` — has confidence
exactly 0.7, whatever the image and cascade output. -/
theorem haar_conf_const (st : DetectorState) (img : Image) (rv : Rect → Image)
    (t : Int) (f : DetectedFace) (hinit : st.initialized = true)
    (hhaar : (st.useDeepLearning && st.netNonEmpty) = false)
    (hf : f ∈ (detectFaces st img rv t).faces ∨ f ∈ (detectFacesInRegion st img t).faces) :
    f.confidence = 7/10 := by
  rcases hf with hf | hf
  · rw [detectFaces_faces_main st img rv t hinit] at hf
    unfold mainPassFaces at hf
    rw [hhaar] at hf
    simp only [Bool.false_eq_true, if_false] at hf
    exact (haarFullPass_mem hf).2
  · unfold detectFacesInRegion at hf
    rw [hinit, hhaar] at hf
    simp only [Bool.not_true, Bool.false_eq_true, if_false] at hf
    exact (haarRegionPass_mem hf).2

/-- C10 witness: the face accepted from `imgW` on the Haar backend has
confidence 0.7. -/
theorem haar_conf_const_witness : fc1.confidence = 7/10 :=
  haar_conf_const stH imgW rvB 0 fc1 rfl rfl
    (Or.inl (by rw [detectFaces_imgW_eval]; exact List.mem_singleton_self fc1))

/-- C2 counterexample: an existing face of confidence 0.4 and an incoming face
of confidence 0.9 overlap with IoU 1/2 (above the 0.3 threshold), yet the
merge keeps BOTH — the lower-confidence duplicate remains in the result. -/
theorem dedup_keeps_lower_conf_cex :
    iou f09.boundingBox e04.boundingBox = 1/2 ∧
    e04.confidence = 4/10 ∧ f09.confidence = 9/10 ∧
    mergeEscalated [e04] [f09] = [e04, f09] := by
  refine ⟨?_, rfl, rfl, mergeEscalated_e04_f09⟩
  norm_num [iou, interIsEmpty, interRect, rectArea, e04, f09]

/-- C2 amended: of an overlapping pair (IoU above 0.3) the incoming face is
dropped when its confidence does not exceed the existing one; an incoming
higher-confidence face is appended while the existing lower-confidence face
also remains — the merge never removes an already-accepted face. -/
theorem dedup_amended (e f : DetectedFace)
    (hne : interIsEmpty f.boundingBox e.boundingBox = false)
    (hiou : iou f.boundingBox e.boundingBox > 3/10) :
    (¬ f.confidence > e.confidence → mergeEscalated [e] [f] = [e]) ∧
    (f.confidence > 4/10 → f.confidence > e.confidence →
      mergeEscalated [e] [f] = [e, f]) := by
  have hover : isOverlapping f [e] = (if f.confidence > e.confidence then false else true) := by
    simp only [isOverlapping, hne, Bool.false_eq_true, if_false]
    rw [if_pos hiou]
  constructor
  · intro hle
    have hov : isOverlapping f [e] = true := by rw [hover, if_neg hle]
    unfold mergeEscalated
    simp only [List.foldl_cons, List.foldl_nil]
    unfold mergeStep
    rw [if_neg (by simp [hov])]
  · intro h4 hgt
    have hov : isOverlapping f [e] = false := by rw [hover, if_pos hgt]
    unfold mergeEscalated
    simp only [List.foldl_cons, List.foldl_nil]
    unfold mergeStep
    rw [if_pos ⟨h4, hov⟩]
    rfl

/-- C2 amended witness: with existing confidence 0.9 an incoming 0.4 duplicate
is dropped; with existing confidence 0.4 an incoming 0.9 duplicate is appended
and both remain. -/
theorem dedup_amended_witness :
    mergeEscalated [f09] [e04] = [f09] ∧ mergeEscalated [e04] [f09] = [e04, f09] := by
  have h1 := dedup_amended f09 e04 (by norm_num [interIsEmpty, interRect, e04, f09])
    (by norm_num [iou, interIsEmpty, interRect, rectArea, e04, f09])
  have h2 := dedup_amended e04 f09 (by norm_num [interIsEmpty, interRect, e04, f09])
    (by norm_num [iou, interIsEmpty, interRect, rectArea, e04, f09])
  exact ⟨h1.1 (by norm_num [e04, f09]), h2.2 (by norm_num [f09]) (by norm_num [e04, f09])⟩

/-- C3: on an undecodable buffer `detectFacesFromBuffer` returns
`success=false` with the fixed non-empty message and without raising, but the
`processingTimeMs` field is never assigned on this path (the default-
constructed `long long` stays indeterminate, modelled `none`), so the claimed
`processingTimeMs ≥ 0` is not established by the code. -/
theorem buffer_decode_failure_eval :
    detectFacesFromBuffer stH decodeFail rvB badBuf 5 =
      { success := false, error := "Failed to decode image from buffer", faces := [],
        processingTimeMs := none } ∧
    ("Failed to decode image from buffer" : String) ≠ "" := by
  exact ⟨rfl, by decide⟩

/-- C7 counterexample: a sparse (empty) main pass on the Haar backend, where
the zoomed-region search would find and merge a valid face
(`escalationFaces` is non-empty), yet `detectFaces` returns no faces — the
escalation is statically disabled. -/
theorem escalation_never_runs_cex :
    (detectFaces stH blankImg rv7 0).success = true ∧
    (detectFaces stH blankImg rv7 0).faces = [] ∧
    escalationFaces stH blankImg rv7 [] ≠ [] := by
  refine ⟨?_, ?_, ?_⟩
  · simp [detectFaces, stH]
  · rw [detectFaces_faces_main _ _ _ _ rfl]
    simp [mainPassFaces, stH, haarFullPass, blankImg]
  · rw [escalation_eval]
    simp

/-- C7 amended: the multi-scale zoomed-region search is present in the code
(five regions, four quadrants plus a centered one, each re-run through the
region pipeline and coordinate-mapped back) but its guard is the literal
`false && ...`, so `detectFaces` never applies it: the result faces are
exactly the main pass's faces. -/
theorem escalation_disabled_amended (st : DetectorState) (img : Image)
    (rv : Rect → Image) (t : Int) (hinit : st.initialized = true) :
    multiScaleGuard (mainPassFaces st img) = false ∧
    (detectFaces st img rv t).faces = mainPassFaces st img :=
  ⟨multiScaleGuard_false _, detectFaces_faces_main st img rv t hinit⟩

/-- C7 amended witness: evaluated on the Haar backend with the blank frame. -/
theorem escalation_disabled_amended_witness :
    multiScaleGuard (mainPassFaces stH blankImg) = false ∧
    (detectFaces stH blankImg rv7 0).faces = mainPassFaces stH blankImg :=
  escalation_disabled_amended stH blankImg rv7 0 rfl

/-- C9 counterexample: a synchronous call and the resolved asynchronous call on
the same initialized instance and identical frame agree on success, error and
faces, but each stores its own wall-clock measurement, so the results are not
field-for-field identical (processingTimeMs 3 vs 7). -/
theorem async_sync_time_cex :
    detectFaces stH blankImg rvB 3 ≠ detectFacesAsync stH blankImg rvB true 7 ∧
    (detectFaces stH blankImg rvB 3).faces = (detectFacesAsync stH blankImg rvB true 7).faces ∧
    (detectFaces stH blankImg rvB 3).success =
      (detectFacesAsync stH blankImg rvB true 7).success ∧
    (detectFaces stH blankImg rvB 3).error = (detectFacesAsync stH blankImg rvB true 7).error ∧
    (detectFaces stH blankImg rvB 3).processingTimeMs ≠
      (detectFacesAsync stH blankImg rvB true 7).processingTimeMs := by
  decide

/-- C9 amended: the resolved value of `detectFacesAsync` (which runs
`detectFaces` on a pixel-identical clone) agrees with a synchronous
`detectFaces` call on the success flag, the error string and the face
sequence, for any pool availability and any pair of wall-clock measurements. -/
theorem async_sync_amended (st : DetectorState) (img : Image) (rv : Rect → Image)
    (pool : Bool) (e₁ e₂ : Int) :
    (detectFacesAsync st img rv pool e₂).success = (detectFaces st img rv e₁).success ∧
    (detectFacesAsync st img rv pool e₂).error = (detectFaces st img rv e₁).error ∧
    (detectFacesAsync st img rv pool e₂).faces = (detectFaces st img rv e₁).faces := by
  have h := detectFaces_time_indep st img rv e₂ e₁
  unfold detectFacesAsync clone
  cases pool <;> simpa using h
